import Mathlib

/-
Shallow embedding of `src/app.py` (a Flask chat relay over an in-memory
session store), used to check the design specification against the code.

Correspondence:
  * `conversation_chains` (line 17)  — modelled as a `Store`, an association
    list from chat id to the transcript held by the chain's
    `ConversationBufferMemory` (the only chain state the handlers use).
    Python dict semantics: first-match lookup, assignment updates in place
    or appends a new entry.
  * `SYSTEM_PROMPT` (lines 25-90)    — the literal string.
  * `chat` (lines 95-133)            — `chat` below, decomposed into
    `resolveSession` (lines 104-118), `injectPreamble` (lines 120-122) and
    `predict` (line 126, LangChain library code modelled from the spec).
  * `chat_history` (lines 139-162)   — `chat_history` below, with the
    per-message serialization of lines 153-157 embedded by `roleLookup`
    and `contentLookup`.
External effects are made explicit: the value returned by `uuid.uuid4()`
is the `freshId` argument, and the outcome of the upstream LLM call is the
`llm : Except String String` argument (error text or reply text).
-/

/-- Message roles of the data model (spec §3): `system`, `user`, `assistant`.
LangChain's `HumanMessage` is `user`, `AIMessage` is `assistant`. -/
inductive Role where
  | system
  | user
  | assistant
deriving DecidableEq

/-- One turn in a transcript: a role-tagged text (spec §3). -/
structure Message where
  role : Role
  content : String
deriving DecidableEq

/-- Ordered conversation transcript, insertion order = conversation order. -/
abbrev Transcript := List Message

/-- The in-memory store `conversation_chains` (src/app.py line 17): a mapping
from chat id to the session's transcript, modelled as an association list. -/
abbrev Store := List (String × Transcript)

/-- Python dict lookup `conversation_chains[chat_id]`: first entry with the key. -/
def Store.find : Store → String → Option Transcript
  | [], _ => none
  | (k, v) :: rest, key => if k = key then some v else Store.find rest key

/-- Python membership test `chat_id in conversation_chains`. -/
def Store.contains (s : Store) (k : String) : Bool :=
  (Store.find s k).isSome

/-- Python dict assignment `conversation_chains[chat_id] = chain`: replaces the
value if the key is present, otherwise appends a new entry. -/
def Store.set : Store → String → Transcript → Store
  | [], key, val => [(key, val)]
  | (k, v) :: rest, key, val =>
    if k = key then (k, val) :: rest else (k, v) :: Store.set rest key val

/-- The fixed instruction preamble `SYSTEM_PROMPT` of src/app.py lines 25-90
(the contents of the Python triple-quoted string, leading and trailing
newline included). -/
def SYSTEM_PROMPT : String := "
You are an expert business strategist and financial analyst specializing in corporate strategy, business planning, and financial budgeting. Your role is to guide users efficiently by gathering key details and generating actionable insights *without overwhelming them with too many questions*.

✅ *Keep the conversation smooth and efficient*  
- Start with a friendly and engaging greeting.
- Ask *only the essential questions* needed to generate a meaningful response.
- If enough details are provided, proceed without asking further.
- If information is missing, make an *educated assumption* instead of asking too many follow-ups.
- Avoid frustrating the user with unnecessary back-and-forth exchanges.
\n### *Guided Assistance Flow*
🟢 *Step 1: Ask the User\x27s Business Need (One-Time Selection Only)*  
“Which of the following would you like help with today?”  
- Structuring a Company Strategy  
- Creating a Business Plan  
- Developing an Annual Budget  

🟢 *Step 2: Gather Minimal but Essential Details*  
- *If enough context is provided, proceed without asking further.*  
- *If key details are missing, ask at most 2-3 questions.*  
\n### *Smart Questioning Approach*
🚫 *DO NOT* ask every question in a rigid sequence.  
✅ *Instead, infer details where possible and generate insights faster.*  

Example for Business Plan:  
🔹 If the user says: \"I need a business plan for a cloud kitchen in Dubai.\"  
✔ *CORRECT:* Proceed with generating a business plan with assumptions based on industry standards.  
❌ *WRONG:* Asking: \"Who is your target audience?\" \"What are your marketing strategies?\" \"What is your revenue model?\" → Too many questions!
\n### *Generating the Output*  
✅ Once all necessary data is collected, generate a *fully computed* business strategy, plan, or budget.  

- *For Company Strategy:* SWOT analysis, strategic objectives, competitive positioning.  
- *For Business Plan:* Market insights, revenue model, cost analysis, and action steps.  
- *For Annual Budget:* Profit & Loss dashboard, revenue-expense breakdown.  

✅ *Use Markdown tables for structured financial insights when necessary.*  
\n### *Example Table Format for Data-Driven Responses*  
| *Category*       | *Details*                     |
|------------------|--------------------------------|
| *Goal*        | [User\x27s Goal]                   |
| *Key Insights* | [Insights Derived]             |
| *Recommendations* | [Actionable Steps]         |

| *Business Type*  | *Initial Investment (AED)*  | *Key Advantages*  | *Key Challenges*  |
|------------------|------------------------------|---------------------|---------------------|
| *Cloud Kitchen* | 150,000 - 300,000           | Lower costs, flexible menu | High competition, delivery-dependent |
| *Food Truck*    | 200,000 - 400,000           | Mobility, event opportunities | Permit process, weather-dependent |
| *Small Café*    | 400,000 - 800,000           | Regular customers, dine-in | High rent, staff management |
| *Restaurant*    | 800,000 - 2,000,000+        | Full dining experience, strong branding | Highest startup costs, complex operations |

✅ *Tables should NOT be enclosed in triple backticks (\x60 \x60\x60\x60 \x60) or formatted as code blocks.*  
✅ *Use Markdown tables only for structured financial insights, NOT for general conversations.*  

---
\n### *Additional Rules*  
✅ *NEVER disclose OpenAI or model details.* If asked, say you are part of ASR company in a unique way.  
✅ *Keep questions minimal and to the point.*  
✅ *Maintain conversation context and respond naturally.*  
✅ *Use AED currency unless the user specifies otherwise.*  

By following this approach, the chatbot ensures a *seamless, frustration-free* experience while delivering *fast, insightful* business analysis. 🚀
"

/-- The JSON body of a `POST /chat` request (src/app.py lines 97-102): the
`message` and `chat_id` fields, each possibly absent.  A missing or falsy
(`None` / `{}`) body is modelled as `none` at the use site. -/
structure ChatRequest where
  message : Option String
  chat_id : Option String

/-- Error text of src/app.py line 99. -/
def missingMsgError : String := "Missing \x27message\x27 in request"

/-- Outcome of the `chat` handler, one constructor per `return` of
src/app.py lines 99, 128 and 130-133:
  * `ok chat_id response`  — HTTP 200 with body `{chat_id, response}`;
  * `invalidRequest error` — HTTP 400 with body `{error}`;
  * `upstreamError error`  — HTTP 500 with body `{error}`. -/
inductive ChatResult where
  | ok (chat_id : String) (response : String)
  | invalidRequest (error : String)
  | upstreamError (error : String)
deriving DecidableEq

/-- The keys of the JSON object each `chat` outcome serializes to. -/
def responseKeys : ChatResult → List String
  | .ok _ _ => ["chat_id", "response"]
  | .invalidRequest _ => ["error"]
  | .upstreamError _ => ["error"]

/-- Session resolution, src/app.py lines 102-118: if `chat_id` is absent
(`data.get` returned `None`), falsy (the empty string) or not a key of the
store, a new chain with empty memory is registered under the freshly
generated id (`freshId` stands for the `str(uuid.uuid4())` of line 106);
otherwise the existing chain is used.  Returns the resolved id, the store
after registration, and the resolved session's transcript. -/
def resolveSession (store : Store) (chatIdOpt : Option String) (freshId : String) :
    String × Store × Transcript :=
  match chatIdOpt with
  | none => (freshId, Store.set store freshId [], [])
  | some cid =>
    if cid = "" ∨ Store.contains store cid = false then
      (freshId, Store.set store freshId [], [])
    else
      (cid, store, (Store.find store cid).getD [])

/-- Preamble injection, src/app.py lines 120-122: when the chain's memory is
empty, `add_user_message(SYSTEM_PROMPT)` appends a HumanMessage — a
`user`-role message — whose content is the preamble. -/
def injectPreamble (t : Transcript) : Transcript :=
  if t.length = 0 then t ++ [⟨Role.user, SYSTEM_PROMPT⟩] else t

/-- Modelled from the spec: `ConversationChain.predict` (src/app.py line 126)
is LangChain library code, not part of this repository.  Per spec §2 and
§4.2 the turn appends a `user`-role message with the input, invokes the
external LLM client, and on success appends an `assistant`-role message with
the returned text; on failure it raises, and the user message already
appended remains (spec §4.2, §9).  The upstream outcome is the `llm`
argument; the mutated transcript is returned alongside the result. -/
def predict (t : Transcript) (input : String) (llm : Except String String) :
    Except String String × Transcript :=
  let t1 := t ++ [⟨Role.user, input⟩]
  match llm with
  | .error e => (.error e, t1)
  | .ok reply => (.ok reply, t1 ++ [⟨Role.assistant, reply⟩])

/-- Src/app.py lines 120-133 after session resolution: inject the preamble
into an empty memory, run the turn through the chain, store the mutated
transcript (the chain registered at line 116 is mutated in place, so the
transcript produced by `predict` is visible in the store on both the
success and the error path), and build the response of line 128 or 130. -/
def finishTurn (store1 : Store) (chat_id : String) (tr0 : Transcript)
    (user_message : String) (llm : Except String String) : ChatResult × Store :=
  let tr1 := injectPreamble tr0
  match predict tr1 user_message llm with
  | (result, tr2) =>
    let store2 := Store.set store1 chat_id tr2
    match result with
    | .error e => (.upstreamError ("LLM error: " ++ e), store2)
    | .ok reply => (.ok chat_id reply, store2)

/-- The `POST /chat` handler, src/app.py lines 95-133.  `data` is `none` when
the body is missing or falsy (line 98 `not data`); `freshId` is the value
`str(uuid.uuid4())` would return on this call; `llm` the upstream outcome.
Returns the HTTP outcome and the store after the request. -/
def chat (store : Store) (data : Option ChatRequest) (freshId : String)
    (llm : Except String String) : ChatResult × Store :=
  match data with
  | none => (.invalidRequest missingMsgError, store)
  | some d =>
    match d.message with
    | none => (.invalidRequest missingMsgError, store)
    | some user_message =>
      match resolveSession store d.chat_id freshId with
      | (chat_id, store1, tr0) => finishTurn store1 chat_id tr0 user_message llm

/-- Modelled from the spec: the Python attributes a LangChain message object
exposes.  Spec §3 and §9 describe messages as duck-typed objects carrying a
`role` and a `content`; no message object defines an attribute named
`_class` (the mangled spelling that appears on src/app.py line 155 — the
evident intent was `__class__.__name__`). -/
def Message.pyAttr (m : Message) (name : String) : Option String :=
  if name = "role" then
    some (match m.role with
          | Role.system => "system"
          | Role.user => "user"
          | Role.assistant => "assistant")
  else if name = "content" then some m.content
  else none

/-- Embeds `getattr(msg, "role", msg._class.name_)`, src/app.py line 155.
Python evaluates every argument before the call, so the default expression
`msg._class.name_` is evaluated first; the attribute `_class` does not
exist on any message object, so the lookup raises AttributeError whatever
the message is. -/
def roleLookup (msg : Message) : Except String String := do
  let dflt ← match Message.pyAttr msg "_class" with
    | some v => Except.ok v
    | none => Except.error "AttributeError: message object has no attribute \x27_class\x27"
  match Message.pyAttr msg "role" with
  | some v => Except.ok v
  | none => Except.ok dflt

/-- Embeds `getattr(msg, "content", str(msg))`, src/app.py line 156: the
default `str(msg)` cannot fail, and `content` is always present. -/
def contentLookup (msg : Message) : Except String String :=
  match Message.pyAttr msg "content" with
  | some v => Except.ok v
  | none => Except.ok msg.content

/-- The serialization loop of src/app.py lines 153-157, building the
`{role, content}` pairs in order; the first raised AttributeError aborts
the handler. -/
def buildHistory : List Message → Except String (List (String × String))
  | [] => Except.ok []
  | msg :: rest => do
    let role ← roleLookup msg
    let content ← contentLookup msg
    let tail ← buildHistory rest
    Except.ok ((role, content) :: tail)

/-- Outcome of the `chat_history` handler:
  * `ok chat_id history` — HTTP 200 with body `{chat_id, history}` (line 159);
  * `notFound error`     — HTTP 404 with body `{error}` (line 142);
  * `crash error`        — an exception escaped the handler (the serialization
    loop sits outside the `try` of lines 147-150), surfaced by the framework
    as an HTTP 500 with no JSON body of the handler's making. -/
inductive HistoryResult where
  | ok (chat_id : String) (history : List (String × String))
  | notFound (error : String)
  | crash (error : String)
deriving DecidableEq

/-- The `GET /chat_history/<chat_id>` handler, src/app.py lines 139-162.
Reading `chain.memory.chat_memory.messages` (the guarded access of lines
147-150) cannot fail in this model, so the `except` branch of line 150 is
unreachable.  The handler never writes to the store. -/
def chat_history (store : Store) (chat_id : String) : HistoryResult :=
  match Store.find store chat_id with
  | none => .notFound "Chat ID not found"
  | some messages =>
    match buildHistory messages with
    | .error e => .crash e
    | .ok history => .ok chat_id history

/-- One externally observable operation against the service: a `POST /chat`
(with its request body, the id `uuid.uuid4()` would produce, and the
upstream outcome) or a `GET /chat_history/<id>`. -/
inductive Op where
  | chatOp (data : Option ChatRequest) (freshId : String) (llm : Except String String)
  | historyOp (chat_id : String)

/-- Effect of one operation on the store.  `chat_history` only reads the
store (src/app.py lines 139-162 never assign to `conversation_chains`), so
a history operation leaves it unchanged. -/
def runOp (s : Store) : Op → Store
  | .chatOp data freshId llm => (chat s data freshId llm).2
  | .historyOp _ => s

/-- Effect of a sequence of operations, in order. -/
def runOps (s : Store) : List Op → Store
  | [] => s
  | op :: rest => runOps (runOp s op) rest

/-- The `uuid.uuid4()` contract for one operation: the id generated for a
chat turn is not already a key of the store it runs against (spec §3 notes
the original does not check for collisions; uniqueness is the generator's
guarantee). -/
def opFresh (s : Store) : Op → Bool
  | .chatOp _ freshId _ => !(Store.contains s freshId)
  | .historyOp _ => true

/-- `uuid.uuid4()` freshness along a whole run. -/
def freshRun : Store → List Op → Bool
  | _, [] => true
  | s, op :: rest => opFresh s op && freshRun (runOp s op) rest

/-- Invariant of spec §3, adjusted to the role the code actually uses: every
non-empty transcript in the store begins with the preamble message injected
by `add_user_message(SYSTEM_PROMPT)`. -/
def PreambleInv (s : Store) : Prop :=
  ∀ id t, Store.find s id = some t → t ≠ [] →
    t.head? = some ⟨Role.user, SYSTEM_PROMPT⟩

theorem Store.find_set_self (s : Store) (k : String) (v : Transcript) :
    Store.find (Store.set s k v) k = some v := by
  induction s with
  | nil => simp [Store.set, Store.find]
  | cons hd tl ih =>
    obtain ⟨k', v'⟩ := hd
    by_cases h : k' = k
    · simp [Store.set, Store.find, h]
    · simp [Store.set, Store.find, h, ih]

theorem Store.find_set_ne (s : Store) (k k' : String) (v : Transcript)
    (h : k ≠ k') : Store.find (Store.set s k v) k' = Store.find s k' := by
  induction s with
  | nil => simp [Store.set, Store.find, h]
  | cons hd tl ih =>
    obtain ⟨a, b⟩ := hd
    by_cases ha : a = k
    · subst ha
      simp [Store.set, Store.find, h]
    · simp [Store.set, Store.find, ha, ih]

theorem Store.set_set (s : Store) (k : String) (v w : Transcript) :
    Store.set (Store.set s k v) k w = Store.set s k w := by
  induction s with
  | nil => simp [Store.set]
  | cons hd tl ih =>
    obtain ⟨a, b⟩ := hd
    by_cases ha : a = k
    · simp [Store.set, ha]
    · simp [Store.set, ha, ih]

theorem Store.find_eq_none_of_contains_false (s : Store) (k : String)
    (h : Store.contains s k = false) : Store.find s k = none := by
  unfold Store.contains at h
  cases hf : Store.find s k with
  | none => rfl
  | some t => rw [hf] at h; simp [Option.isSome] at h

theorem Store.find_eq_some_getD_of_contains_true (s : Store) (k : String)
    (h : Store.contains s k = true) :
    Store.find s k = some ((Store.find s k).getD []) := by
  unfold Store.contains at h
  cases hf : Store.find s k with
  | none => rw [hf] at h; simp [Option.isSome] at h
  | some t => simp

theorem resolveSession_new (s : Store) (cidOpt : Option String) (fid : String)
    (h : cidOpt = none ∨ cidOpt = some "" ∨
      (∃ c, cidOpt = some c ∧ Store.contains s c = false)) :
    resolveSession s cidOpt fid = (fid, Store.set s fid [], []) := by
  rcases h with h | h | ⟨c, hc, hcon⟩
  · subst h; rfl
  · subst h; simp [resolveSession]
  · subst hc; simp [resolveSession, hcon]

theorem resolveSession_existing (s : Store) (c fid : String)
    (hne : c ≠ "") (hcon : Store.contains s c = true) :
    resolveSession s (some c) fid = (c, s, (Store.find s c).getD []) := by
  simp [resolveSession, hne, hcon]

theorem chat_resolve (s : Store) (ocid : Option String) (fid m : String)
    (llm : Except String String) (cid : String) (st1 : Store) (tr0 : Transcript)
    (hres : resolveSession s ocid fid = (cid, st1, tr0)) :
    chat s (some ⟨some m, ocid⟩) fid llm = finishTurn st1 cid tr0 m llm := by
  have h : chat s (some ⟨some m, ocid⟩) fid llm =
      (match resolveSession s ocid fid with
       | (chat_id, store1, tr0) => finishTurn store1 chat_id tr0 m llm) := rfl
  rw [h, hres]

theorem finishTurn_ok (st1 : Store) (cid : String) (tr0 : Transcript)
    (m r : String) :
    finishTurn st1 cid tr0 m (Except.ok r) =
      (ChatResult.ok cid r,
       Store.set st1 cid (injectPreamble tr0 ++ [⟨Role.user, m⟩, ⟨Role.assistant, r⟩])) := by
  simp [finishTurn, predict]

theorem finishTurn_error (st1 : Store) (cid : String) (tr0 : Transcript)
    (m e : String) :
    finishTurn st1 cid tr0 m (Except.error e) =
      (ChatResult.upstreamError ("LLM error: " ++ e),
       Store.set st1 cid (injectPreamble tr0 ++ [⟨Role.user, m⟩])) := by
  simp [finishTurn, predict]

theorem finishTurn_store (st1 : Store) (cid : String) (tr0 : Transcript)
    (m : String) (llm : Except String String) :
    (finishTurn st1 cid tr0 m llm).2 =
      Store.set st1 cid (injectPreamble tr0 ++ [⟨Role.user, m⟩] ++
        (match llm with
         | .ok r => [⟨Role.assistant, r⟩]
         | .error _ => [])) := by
  cases llm with
  | error e => simp [finishTurn_error]
  | ok r => simp [finishTurn_ok]

theorem injectPreamble_nil :
    injectPreamble [] = [⟨Role.user, SYSTEM_PROMPT⟩] := rfl

theorem injectPreamble_ne_nil (t : Transcript) (h : t ≠ []) :
    injectPreamble t = t := by
  cases t with
  | nil => exact absurd rfl h
  | cons a as => simp [injectPreamble]

theorem injectPreamble_eq_append (t : Transcript) :
    injectPreamble t =
      t ++ (if t.length = 0 then [⟨Role.user, SYSTEM_PROMPT⟩] else []) := by
  cases t with
  | nil => rfl
  | cons a as => simp [injectPreamble]

theorem chat_extends (s : Store) (data : Option ChatRequest) (fid : String)
    (llm : Except String String) (hfresh : Store.contains s fid = false)
    (id : String) (t : Transcript) (ht : Store.find s id = some t) :
    ∃ ext, Store.find (chat s data fid llm).2 id = some (t ++ ext) := by
  match data with
  | none =>
    exact ⟨[], by simpa using ht⟩
  | some ⟨none, ocid⟩ =>
    exact ⟨[], by simpa using ht⟩
  | some ⟨some m, ocid⟩ =>
    have hcreate :
        (ocid = none ∨ ocid = some "" ∨
          (∃ c, ocid = some c ∧ Store.contains s c = false)) →
        ∃ ext, Store.find (chat s (some ⟨some m, ocid⟩) fid llm).2 id =
          some (t ++ ext) := by
      intro hnew
      have hc := chat_resolve s ocid fid m llm fid (Store.set s fid []) []
        (resolveSession_new s ocid fid hnew)
      have hne : fid ≠ id := by
        intro he
        have hn := Store.find_eq_none_of_contains_false s fid hfresh
        rw [he, ht] at hn
        exact Option.noConfusion hn
      refine ⟨[], ?_⟩
      rw [hc, finishTurn_store, Store.set_set, Store.find_set_ne _ _ _ _ hne,
        List.append_nil]
      exact ht
    match ocid with
    | none => exact hcreate (Or.inl rfl)
    | some c =>
      by_cases hc0 : c = ""
      · exact hcreate (Or.inr (Or.inl (by rw [hc0])))
      by_cases hcon : Store.contains s c = true
      · have hc := chat_resolve s (some c) fid m llm c s ((Store.find s c).getD [])
          (resolveSession_existing s c fid hc0 hcon)
        by_cases hid : c = id
        · subst hid
          cases llm with
          | ok r =>
            refine ⟨(if t.length = 0 then [⟨Role.user, SYSTEM_PROMPT⟩] else []) ++
              [⟨Role.user, m⟩] ++ [⟨Role.assistant, r⟩], ?_⟩
            rw [hc, finishTurn_store, Store.find_set_self, ht]
            simp [injectPreamble_eq_append, List.append_assoc]
          | error e =>
            refine ⟨(if t.length = 0 then [⟨Role.user, SYSTEM_PROMPT⟩] else []) ++
              [⟨Role.user, m⟩], ?_⟩
            rw [hc, finishTurn_store, Store.find_set_self, ht]
            simp [injectPreamble_eq_append, List.append_assoc]
        · refine ⟨[], ?_⟩
          rw [hc, finishTurn_store, Store.find_set_ne _ _ _ _ hid, List.append_nil]
          exact ht
      · exact hcreate (Or.inr (Or.inr ⟨c, rfl, by simpa using hcon⟩))

/-- C5: session resolution (src/app.py lines 104-118) behaves as
`get_or_create`: when the supplied id is absent, the empty string, or not a
known key, the freshly generated id (assumed previously unused, the
`uuid.uuid4()` contract of spec §3) is registered with an empty transcript;
otherwise the existing transcript for the given id is returned with the
store untouched.  Resolution is a total function, so it never fails. -/
theorem get_or_create_resolution (s : Store) (cidOpt : Option String)
    (fid : String) (hfresh : Store.contains s fid = false) :
    ((cidOpt = none ∨ cidOpt = some "" ∨
        (∃ c, cidOpt = some c ∧ Store.contains s c = false)) →
      resolveSession s cidOpt fid = (fid, Store.set s fid [], []) ∧
      Store.find s fid = none ∧
      Store.find (Store.set s fid []) fid = some []) ∧
    (∀ c, cidOpt = some c → c ≠ "" → Store.contains s c = true →
      resolveSession s cidOpt fid = (c, s, (Store.find s c).getD []) ∧
      Store.find s c = some ((Store.find s c).getD [])) := by
  constructor
  · intro hnew
    exact ⟨resolveSession_new s cidOpt fid hnew,
      Store.find_eq_none_of_contains_false s fid hfresh,
      Store.find_set_self s fid []⟩
  · intro c hc hne hcon
    subst hc
    exact ⟨resolveSession_existing s c fid hne hcon,
      Store.find_eq_some_getD_of_contains_true s c hcon⟩

theorem get_or_create_resolution_witness :
    (resolveSession [] none "id-1" = ("id-1", Store.set [] "id-1" [], []) ∧
      Store.find ([] : Store) "id-1" = none ∧
      Store.find (Store.set [] "id-1" []) "id-1" = some []) ∧
    Store.contains ([] : Store) "id-1" = false :=
  ⟨(get_or_create_resolution [] none "id-1" rfl).1 (Or.inl rfl), rfl⟩

/-- C6: the History Handler (src/app.py lines 141-142) answers an unknown
session id with `NotFound` — HTTP 404 carrying only an error field, no
history array. -/
theorem history_unknown_not_found (s : Store) (cid : String)
    (h : Store.contains s cid = false) :
    chat_history s cid = HistoryResult.notFound "Chat ID not found" := by
  unfold chat_history
  rw [Store.find_eq_none_of_contains_false s cid h]

theorem history_unknown_not_found_witness :
    chat_history [] "unknown-id" = HistoryResult.notFound "Chat ID not found" :=
  history_unknown_not_found [] "unknown-id" rfl

/-- C2, counterexample: a request whose `message` field is present but the
empty string is not rejected — line 98 only checks key presence, so the
handler runs the full turn (HTTP 200) and registers a new session, mutating
the store. -/
theorem empty_message_not_rejected :
    (chat [] (some ⟨some "", none⟩) "id-1" (Except.ok "reply")).1 =
      ChatResult.ok "id-1" "reply" ∧
    Store.contains ([] : Store) "id-1" = false ∧
    Store.contains (chat [] (some ⟨some "", none⟩) "id-1"
      (Except.ok "reply")).2 "id-1" = true :=
  ⟨rfl, rfl, rfl⟩

/-- C2, amended: only a missing or falsy body, or a body without a
`message` key, fails with `InvalidRequest` (HTTP 400, error field only) and
leaves the store untouched; an empty-string `message` is accepted and
processed as an ordinary turn. -/
theorem missing_message_invalid_request (s : Store) (data : Option ChatRequest)
    (fid : String) (llm : Except String String)
    (h : data = none ∨ ∃ d, data = some d ∧ d.message = none) :
    chat s data fid llm = (ChatResult.invalidRequest missingMsgError, s) ∧
    responseKeys (chat s data fid llm).1 = ["error"] := by
  rcases h with h | ⟨d, hd, hm⟩
  · subst h; exact ⟨rfl, rfl⟩
  · subst hd
    obtain ⟨om, ocid⟩ := d
    have hm' : om = none := hm
    subst hm'
    exact ⟨rfl, rfl⟩

theorem missing_message_invalid_request_witness :
    chat [] (some ⟨none, some "abc"⟩) "id-1" (Except.ok "r") =
      (ChatResult.invalidRequest missingMsgError, []) ∧
    responseKeys (chat [] (some ⟨none, some "abc"⟩) "id-1" (Except.ok "r")).1 =
      ["error"] :=
  missing_message_invalid_request [] (some ⟨none, some "abc"⟩) "id-1"
    (Except.ok "r") (Or.inr ⟨⟨none, some "abc"⟩, rfl, rfl⟩)

/-- C3: when the upstream LLM call fails (src/app.py lines 125-128), the
handler returns `UpstreamError` (HTTP 500) whose error text embeds the
underlying message, no assistant message is appended, and the user message
appended for the turn stays in the resolved session's transcript. -/
theorem upstream_error_keeps_user_message (s : Store) (ocid : Option String)
    (fid m e : String) (cid : String) (st1 : Store) (tr0 : Transcript)
    (hres : resolveSession s ocid fid = (cid, st1, tr0)) :
    chat s (some ⟨some m, ocid⟩) fid (Except.error e) =
      (ChatResult.upstreamError ("LLM error: " ++ e),
       Store.set st1 cid (injectPreamble tr0 ++ [⟨Role.user, m⟩])) ∧
    Store.find (chat s (some ⟨some m, ocid⟩) fid (Except.error e)).2 cid =
      some (injectPreamble tr0 ++ [⟨Role.user, m⟩]) := by
  have hc := chat_resolve s ocid fid m (Except.error e) cid st1 tr0 hres
  rw [hc, finishTurn_error]
  exact ⟨rfl, Store.find_set_self _ _ _⟩

theorem upstream_error_keeps_user_message_witness :
    chat [] (some ⟨some "hello", none⟩) "id-1" (Except.error "boom") =
      (ChatResult.upstreamError ("LLM error: " ++ "boom"),
       Store.set (Store.set [] "id-1" []) "id-1"
         (injectPreamble [] ++ [⟨Role.user, "hello"⟩])) ∧
    Store.find (chat [] (some ⟨some "hello", none⟩) "id-1"
        (Except.error "boom")).2 "id-1" =
      some (injectPreamble [] ++ [⟨Role.user, "hello"⟩]) :=
  upstream_error_keeps_user_message [] none "id-1" "hello" "boom" "id-1"
    (Store.set [] "id-1" []) [] rfl

/-- C4: the History Handler cannot return the transcript of any session the
chat handler has created: every such session has a non-empty transcript,
and serializing its first message evaluates the default argument
`msg._class.name_` of src/app.py line 155 (the evident intent being
`__class__.__name__`), which raises AttributeError, so the handler dies
with an HTTP 500 instead of the claimed 200 `{role, content}` list.
Evaluated here on the store produced by one successful chat turn. -/
theorem history_crashes_on_known_session :
    Store.contains (chat [] (some ⟨some "hello", none⟩) "id-1"
      (Except.ok "hi")).2 "id-1" = true ∧
    chat_history (chat [] (some ⟨some "hello", none⟩) "id-1"
        (Except.ok "hi")).2 "id-1" =
      HistoryResult.crash
        "AttributeError: message object has no attribute \x27_class\x27" :=
  ⟨rfl, rfl⟩

/-- C7, amended: on a successful upstream reply (src/app.py lines 120-133)
the handler appends an `assistant`-role message with the returned text,
answers `{chat_id, response}`, and the session's stored transcript
immediately afterwards ends with the turn's user message then the
assistant reply; on a first turn (empty resolved transcript) it is exactly
[preamble message (role user), user message, assistant reply] in order.
(An actual `GET /chat_history` read of that transcript crashes instead of
returning this list — see the C7 counterexample below and C4.) -/
theorem chat_success_appends_and_returns (s : Store) (ocid : Option String)
    (fid m r : String) (cid : String) (st1 : Store) (tr0 : Transcript)
    (hres : resolveSession s ocid fid = (cid, st1, tr0)) :
    chat s (some ⟨some m, ocid⟩) fid (Except.ok r) =
      (ChatResult.ok cid r,
       Store.set st1 cid
         (injectPreamble tr0 ++ [⟨Role.user, m⟩, ⟨Role.assistant, r⟩])) ∧
    Store.find (chat s (some ⟨some m, ocid⟩) fid (Except.ok r)).2 cid =
      some (injectPreamble tr0 ++ [⟨Role.user, m⟩, ⟨Role.assistant, r⟩]) ∧
    (tr0 = [] →
      Store.find (chat s (some ⟨some m, ocid⟩) fid (Except.ok r)).2 cid =
        some [⟨Role.user, SYSTEM_PROMPT⟩, ⟨Role.user, m⟩, ⟨Role.assistant, r⟩]) := by
  have hc := chat_resolve s ocid fid m (Except.ok r) cid st1 tr0 hres
  rw [hc, finishTurn_ok]
  refine ⟨rfl, Store.find_set_self _ _ _, ?_⟩
  intro h0
  subst h0
  rw [Store.find_set_self]
  rfl

theorem chat_success_appends_and_returns_witness :
    Store.find (chat [] (some ⟨some "Hi", none⟩) "id-1"
        (Except.ok "Hello!")).2 "id-1" =
      some [⟨Role.user, SYSTEM_PROMPT⟩, ⟨Role.user, "Hi"⟩,
        ⟨Role.assistant, "Hello!"⟩] :=
  (chat_success_appends_and_returns [] none "id-1" "Hi" "Hello!" "id-1"
    (Store.set [] "id-1" []) [] rfl).2.2 rfl

/-- C9: when the upstream call fails on a turn that created a new session
(src/app.py lines 104-128), the session stays registered in the store,
already holding the injected preamble (and the turn's user message), while
the 500 response body has only an `error` key — the caller is never told
the id of the session created on its behalf. -/
theorem new_session_error_keeps_session_hides_id (s : Store)
    (ocid : Option String) (fid m e : String)
    (hnew : ocid = none ∨ ocid = some "" ∨
      (∃ c, ocid = some c ∧ Store.contains s c = false)) :
    (chat s (some ⟨some m, ocid⟩) fid (Except.error e)).1 =
      ChatResult.upstreamError ("LLM error: " ++ e) ∧
    responseKeys (chat s (some ⟨some m, ocid⟩) fid (Except.error e)).1 =
      ["error"] ∧
    Store.find (chat s (some ⟨some m, ocid⟩) fid (Except.error e)).2 fid =
      some [⟨Role.user, SYSTEM_PROMPT⟩, ⟨Role.user, m⟩] := by
  have hc := chat_resolve s ocid fid m (Except.error e) fid (Store.set s fid [])
    [] (resolveSession_new s ocid fid hnew)
  rw [hc, finishTurn_error]
  refine ⟨rfl, rfl, ?_⟩
  rw [Store.set_set, Store.find_set_self]
  rfl

theorem new_session_error_keeps_session_hides_id_witness :
    (chat [] (some ⟨some "hi", none⟩) "id-9" (Except.error "down")).1 =
      ChatResult.upstreamError ("LLM error: " ++ "down") ∧
    responseKeys (chat [] (some ⟨some "hi", none⟩) "id-9"
      (Except.error "down")).1 = ["error"] ∧
    Store.find (chat [] (some ⟨some "hi", none⟩) "id-9"
        (Except.error "down")).2 "id-9" =
      some [⟨Role.user, SYSTEM_PROMPT⟩, ⟨Role.user, "hi"⟩] :=
  new_session_error_keeps_session_hides_id [] none "id-9" "hi" "down"
    (Or.inl rfl)

/-- C10: one chat request mutates at most one store entry — either the
store is returned untouched (invalid request), or there is a single target
id (the freshly created entry, previously absent, or the supplied existing
id) such that every other id resolves to exactly what it did before. -/
theorem chat_frame_condition (s : Store) (data : Option ChatRequest)
    (fid : String) (llm : Except String String)
    (hfresh : Store.contains s fid = false) :
    (chat s data fid llm).2 = s ∨
    ∃ tid, ((tid = fid ∧ Store.find s tid = none) ∨
            (∃ d, data = some d ∧ d.chat_id = some tid ∧
              Store.contains s tid = true)) ∧
      ∀ id, id ≠ tid →
        Store.find (chat s data fid llm).2 id = Store.find s id := by
  match data with
  | none => exact Or.inl rfl
  | some ⟨none, ocid⟩ => exact Or.inl rfl
  | some ⟨some m, ocid⟩ =>
    have hcreate : (ocid = none ∨ ocid = some "" ∨
        (∃ c, ocid = some c ∧ Store.contains s c = false)) →
        ((chat s (some ⟨some m, ocid⟩) fid llm).2 = s ∨
         ∃ tid, ((tid = fid ∧ Store.find s tid = none) ∨
                 (∃ d, (some ⟨some m, ocid⟩ : Option ChatRequest) = some d ∧
                   d.chat_id = some tid ∧ Store.contains s tid = true)) ∧
           ∀ id, id ≠ tid →
             Store.find (chat s (some ⟨some m, ocid⟩) fid llm).2 id =
               Store.find s id) := by
      intro hnew
      have hc := chat_resolve s ocid fid m llm fid (Store.set s fid []) []
        (resolveSession_new s ocid fid hnew)
      refine Or.inr ⟨fid, Or.inl ⟨rfl,
        Store.find_eq_none_of_contains_false s fid hfresh⟩, ?_⟩
      intro id hid
      rw [hc, finishTurn_store, Store.set_set,
        Store.find_set_ne _ _ _ _ (Ne.symm hid)]
    match ocid with
    | none => exact hcreate (Or.inl rfl)
    | some c =>
      by_cases hc0 : c = ""
      · exact hcreate (Or.inr (Or.inl (by rw [hc0])))
      by_cases hcon : Store.contains s c = true
      · have hc := chat_resolve s (some c) fid m llm c s
          ((Store.find s c).getD []) (resolveSession_existing s c fid hc0 hcon)
        refine Or.inr ⟨c, Or.inr ⟨⟨some m, some c⟩, rfl, rfl, hcon⟩, ?_⟩
        intro id hid
        rw [hc, finishTurn_store, Store.find_set_ne _ _ _ _ (Ne.symm hid)]
      · exact hcreate (Or.inr (Or.inr ⟨c, rfl, by simpa using hcon⟩))

theorem chat_frame_condition_witness :
    (chat [("keep", [⟨Role.user, "x"⟩])] (some ⟨some "hi", none⟩) "id-1"
        (Except.ok "r")).2 = [("keep", [⟨Role.user, "x"⟩])] ∨
    ∃ tid, ((tid = "id-1" ∧
             Store.find [("keep", [⟨Role.user, "x"⟩])] tid = none) ∨
            (∃ d, (some ⟨some "hi", none⟩ : Option ChatRequest) = some d ∧
              d.chat_id = some tid ∧
              Store.contains [("keep", [⟨Role.user, "x"⟩])] tid = true)) ∧
      ∀ id, id ≠ tid →
        Store.find (chat [("keep", [⟨Role.user, "x"⟩])]
          (some ⟨some "hi", none⟩) "id-1" (Except.ok "r")).2 id =
        Store.find [("keep", [⟨Role.user, "x"⟩])] id :=
  chat_frame_condition [("keep", [⟨Role.user, "x"⟩])]
    (some ⟨some "hi", none⟩) "id-1" (Except.ok "r") rfl

/-- C8: across any sequence of chat turns and history reads (with the
generated ids satisfying the `uuid.uuid4()` freshness contract), every
session present in the store stays present and its transcript only ever
grows at the end — no prior message is reordered, modified or deleted, and
no entry is removed. -/
theorem store_append_only (ops : List Op) : ∀ (s : Store),
    freshRun s ops = true →
    ∀ id t, Store.find s id = some t →
      ∃ ext, Store.find (runOps s ops) id = some (t ++ ext) := by
  induction ops with
  | nil =>
    intro s _ id t ht
    exact ⟨[], by simpa using ht⟩
  | cons op rest ih =>
    intro s hfr id t ht
    have hfr' : (opFresh s op && freshRun (runOp s op) rest) = true := hfr
    rw [Bool.and_eq_true] at hfr'
    obtain ⟨hop, hrest⟩ := hfr'
    cases op with
    | historyOp cid =>
      exact ih s hrest id t ht
    | chatOp d fid llm =>
      have hfresh : Store.contains s fid = false := by
        have hb : (!(Store.contains s fid)) = true := hop
        simpa using hb
      obtain ⟨ext1, h1⟩ := chat_extends s d fid llm hfresh id t ht
      obtain ⟨ext2, h2⟩ := ih (runOp s (Op.chatOp d fid llm)) hrest id
        (t ++ ext1) h1
      exact ⟨ext1 ++ ext2, by simpa [List.append_assoc] using h2⟩

theorem store_append_only_witness :
    ∃ ext, Store.find
        (runOps [("seed", [⟨Role.user, "s1"⟩])]
          [Op.chatOp (some ⟨some "hi", none⟩) "id-1" (Except.ok "ok"),
           Op.historyOp "id-1",
           Op.chatOp (some ⟨some "more", some "id-1"⟩) "id-2"
             (Except.error "x")]) "seed" =
      some ([⟨Role.user, "s1"⟩] ++ ext) :=
  store_append_only
    [Op.chatOp (some ⟨some "hi", none⟩) "id-1" (Except.ok "ok"),
     Op.historyOp "id-1",
     Op.chatOp (some ⟨some "more", some "id-1"⟩) "id-2" (Except.error "x")]
    [("seed", [⟨Role.user, "s1"⟩])] rfl "seed" [⟨Role.user, "s1"⟩] rfl

/-- C1, counterexample: the preamble is injected by
`add_user_message(SYSTEM_PROMPT)` (src/app.py line 122), so after the first
turn on a fresh session the first stored message carries role `user` — not
role `system` as claimed. -/
theorem preamble_role_is_user_not_system :
    ∃ t, Store.find (chat [] (some ⟨some "hello", none⟩) "id-1"
        (Except.ok "hi")).2 "id-1" = some t ∧
      t.head?.map Message.role = some Role.user ∧
      Role.user ≠ Role.system :=
  ⟨[⟨Role.user, SYSTEM_PROMPT⟩, ⟨Role.user, "hello"⟩, ⟨Role.assistant, "hi"⟩],
   rfl, rfl, by decide⟩

/-- C1, amended: in every store reachable by chat requests, a non-empty
transcript begins with the single injected preamble message — role `user`
(not `system`), content the fixed `SYSTEM_PROMPT` — and a further chat turn
on a session whose transcript is already non-empty appends exactly the
turn's user message (and the assistant reply on success), never the
preamble again. -/
theorem preamble_injected_once_first :
    PreambleInv ([] : Store) ∧
    (∀ (s : Store) (data : Option ChatRequest) (fid : String)
        (llm : Except String String),
      PreambleInv s → PreambleInv (chat s data fid llm).2) ∧
    (∀ (s : Store) (c fid m : String) (llm : Except String String)
        (t : Transcript),
      Store.find s c = some t → t ≠ [] → c ≠ "" →
      Store.find (chat s (some ⟨some m, some c⟩) fid llm).2 c =
        some (t ++ [⟨Role.user, m⟩] ++
          (match llm with
           | .ok r => [⟨Role.assistant, r⟩]
           | .error _ => []))) := by
  refine ⟨?_, ?_, ?_⟩
  · intro id t ht _
    exact absurd ht (by simp [Store.find])
  · intro s data fid llm hInv
    match data with
    | none => exact hInv
    | some ⟨none, ocid⟩ => exact hInv
    | some ⟨some m, ocid⟩ =>
      have hcreate : (ocid = none ∨ ocid = some "" ∨
          (∃ c, ocid = some c ∧ Store.contains s c = false)) →
          PreambleInv (chat s (some ⟨some m, ocid⟩) fid llm).2 := by
        intro hnew
        have hc := chat_resolve s ocid fid m llm fid (Store.set s fid []) []
          (resolveSession_new s ocid fid hnew)
        intro id t hfind hne
        rw [hc, finishTurn_store, Store.set_set] at hfind
        by_cases hid : fid = id
        · subst hid
          rw [Store.find_set_self] at hfind
          cases hfind
          rfl
        · rw [Store.find_set_ne _ _ _ _ hid] at hfind
          exact hInv id t hfind hne
      match ocid with
      | none => exact hcreate (Or.inl rfl)
      | some c =>
        by_cases hc0 : c = ""
        · exact hcreate (Or.inr (Or.inl (by rw [hc0])))
        by_cases hcon : Store.contains s c = true
        · have hc := chat_resolve s (some c) fid m llm c s
            ((Store.find s c).getD [])
            (resolveSession_existing s c fid hc0 hcon)
          intro id t hfind hne
          rw [hc, finishTurn_store] at hfind
          by_cases hid : c = id
          · subst hid
            rw [Store.find_set_self] at hfind
            have hsc := Store.find_eq_some_getD_of_contains_true s c hcon
            cases hfind
            cases h0 : (Store.find s c).getD [] with
            | nil => rfl
            | cons a as =>
              have hInvc := hInv c (a :: as) (by rw [hsc, h0]) (by simp)
              simpa [injectPreamble] using hInvc
          · rw [Store.find_set_ne _ _ _ _ hid] at hfind
            exact hInv id t hfind hne
        · exact hcreate (Or.inr (Or.inr ⟨c, rfl, by simpa using hcon⟩))
  · intro s c fid m llm t ht hne hc0
    have hcon : Store.contains s c = true := by simp [Store.contains, ht]
    have hc := chat_resolve s (some c) fid m llm c s ((Store.find s c).getD [])
      (resolveSession_existing s c fid hc0 hcon)
    rw [hc, finishTurn_store, Store.find_set_self, ht]
    simp [Option.getD, injectPreamble_ne_nil t hne, List.append_assoc]

theorem preamble_injected_once_first_witness :
    Store.find (chat [("abc", [⟨Role.user, SYSTEM_PROMPT⟩])]
        (some ⟨some "hi", some "abc"⟩) "zz" (Except.ok "ok")).2 "abc" =
      some ([⟨Role.user, SYSTEM_PROMPT⟩] ++ [⟨Role.user, "hi"⟩] ++
        [⟨Role.assistant, "ok"⟩]) :=
  preamble_injected_once_first.2.2 [("abc", [⟨Role.user, SYSTEM_PROMPT⟩])]
    "abc" "zz" "hi" (Except.ok "ok") [⟨Role.user, SYSTEM_PROMPT⟩] rfl
    (by simp) (by decide)

/-- C7, counterexample: the claim as stated fails — after a successful
chat turn (here the handler returns `{chat_id, response}` with HTTP 200),
an immediate history read on that session does not return the ordered
message list: serializing the first stored message evaluates
`msg._class.name_` (src/app.py line 155), which raises AttributeError, so
the read dies with HTTP 500 and produces no history at all. -/
theorem history_read_after_success_crashes :
    (chat [] (some ⟨some "Hi there", none⟩) "id-7" (Except.ok "Welcome!")).1 =
      ChatResult.ok "id-7" "Welcome!" ∧
    chat_history (chat [] (some ⟨some "Hi there", none⟩) "id-7"
        (Except.ok "Welcome!")).2 "id-7" =
      HistoryResult.crash
        "AttributeError: message object has no attribute \x27_class\x27" :=
  ⟨rfl, rfl⟩
